import Mathlib

/-!
# ergo-auth: token verification of the external authentication script

A shallow embedding of `main.go`.  The program is a thin layer over three
libraries (go-jose, encoding/json, and os/bufio); their entry points are not
part of the repository, so they are taken as the fields of a `Lib` record and
every theorem is stated for an arbitrary such record.  All control flow of the
repository itself (the order of the steps, the comparisons, the early returns
and the panics in `main`) is translated line by line.  The method `verify` is
also given with explicit state passing (`verifyM`), where the receiver object,
the clock and the state of the libraries are part of the state.

Conventions
* a Go `(T, error)` result is a pair whose second component is `none` for `nil`;
* a Go pointer result is an `Option` (`none` for `nil`);
* `[]byte` is `List UInt8`; a Go `string` is a `String`;
* Go `int`, `int64` values are `Int`: the only arithmetic in the program is the
  comparison `time.Now().Unix() > int64(jwt.Expired)`, and the widening
  conversion `int64(_)` of an `int` keeps the value, so no wrap-around occurs.
-/

namespace ErgoAuth

/-- Go `[]byte`. -/
abbrev Bytes := List UInt8

/-- The conversion `[]byte(s)` of a Go string. -/
def bytesOf (s : String) : Bytes := s.toUTF8.data.toList

/-! ## Errors -/

/-- The value built by `errors.New(msg)`; its `Error()` method returns `msg`. -/
structure ErrorString where
  s : String
deriving DecidableEq, Repr

/-- Method `Error()` of an `errors.New` value. -/
def ErrorString.Error (e : ErrorString) : String := e.s

/-- A Go `error` as seen by this program: either an error value handed back by a
library call (kept abstract), `io.EOF` from the line reader, or a value the
program built itself with `errors.New`. -/
inductive GoError (E : Type) where
  | lib (e : E)
  | eof
  | new (e : ErrorString)
deriving DecidableEq, Repr

/-- Variable `ErrUserNoFound = errors.New("user no found")`. -/
def ErrUserNoFound : ErrorString := ⟨"user no found"⟩

/-- Variable `ErrAuthFailed = errors.New("auth failed")`. -/
def ErrAuthFailed : ErrorString := ⟨"auth failed"⟩

/-! ## Data model -/

/-- Declaration `type AuthScriptInput struct`. -/
structure AuthScriptInput where
  AccountName : String
  Passphrase : String
  Certfp : String
  IP : String
deriving DecidableEq, Repr

/-- Declaration `type AuthScriptOutput struct`; the default values are Go zero values, as
left by `var output AuthScriptOutput`. -/
structure AuthScriptOutput where
  AccountName : String := ""
  Success : Bool := false
  Error : String := ""
deriving DecidableEq, Repr

/-- Declaration `type Jwt struct`; `Expired` is the `exp` claim, `IssuedAt` the `iat` claim. -/
structure Jwt where
  Id : String
  Expired : Int
  IssuedAt : Int
  Issuer : String
deriving DecidableEq, Repr

/-- Declaration `type Config struct`; the default values are Go zero values. -/
structure Config where
  JwkKeys : String := ""
  JwkUrl : String := ""
  JwkTTL : Int := 0
  AuthUrl : String := ""
deriving DecidableEq, Repr

/-- Declaration `type Jwks struct { keys jose.JSONWebKeySet }`. -/
structure Jwks (KeySet : Type) where
  keys : KeySet

/-- Declaration `type JwksCache struct { keys *Jwks }`. -/
structure JwksCache (KeySet : Type) where
  keys : Option (Jwks KeySet)

/-! ## The libraries the program calls -/

/-- The library entry points used by `main.go`.  `KeySet` stands for
`jose.JSONWebKeySet`, `JWS` for `*jose.JSONWebSignature` and `E` for the error
values the libraries return.

* `ParseSigned` is `jose.ParseSigned(token)`;
* `Verify jws keys` is `jws.Verify(keys)`, returning the verified payload;
* `UnmarshalJwt data` is `json.Unmarshal(data, &jwt)` on `jwt := Jwt{}`;
* `UnmarshalKeySet data` is `json.Unmarshal(data, &keys)` on an empty key set;
* `UnmarshalInput line` is `json.Unmarshal(line, &input)` on a nil
  `*AuthScriptInput`; the pointer stays nil (`none`) for the JSON value `null`;
* `UnmarshalConfig data` is `json.Unmarshal(configBytes, &config)` on a zero
  `Config`; the struct may have been partly filled when an error is returned;
* `MarshalOutput` is `json.Marshal(output)`;
* `Open name` is `os.Open(name)` followed by `io.ReadAll` (whose own error the
  program discards): the bytes of the file, or the error of `os.Open`. -/
structure Lib (KeySet JWS E : Type) where
  ParseSigned : String → Except E JWS
  Verify : JWS → KeySet → Except E Bytes
  UnmarshalJwt : Bytes → Except E Jwt
  UnmarshalKeySet : Bytes → Except E KeySet
  UnmarshalInput : Bytes → Except E (Option AuthScriptInput)
  UnmarshalConfig : Bytes → Config × Option E
  MarshalOutput : AuthScriptOutput → Except E Bytes
  Open : String → Except E Bytes

variable {KeySet JWS E : Type}

/-! ## The program -/

/-- Function `func NewConfig() (config Config, err error)`; `args` is `os.Args`. -/
def NewConfig (L : Lib KeySet JWS E) (args : List String) : Config × Option (GoError E) :=
  if args.length < 2 then
    ({}, none)
  else
    match L.Open (args.getD 1 "") with
    | .error e => ({}, some (.lib e))
    | .ok configBytes =>
      match L.UnmarshalConfig configBytes with
      | (config, some e) => (config, some (.lib e))
      | (config, none) => (config, none)

/-- Function `func NewJwks(data []byte) (*Jwks, error)`. -/
def NewJwks (L : Lib KeySet JWS E) (data : Bytes) : Option (Jwks KeySet) × Option (GoError E) :=
  match L.UnmarshalKeySet data with
  | .error err => (none, some (.lib err))
  | .ok keys => (some ⟨keys⟩, none)

/-- The error built by `errors.New("token expred")` in `verify`. -/
def tokenExpred : ErrorString := ⟨"token expred"⟩

/-- Function `func (j *Jwks) verify(token string) (bool, error)`; `now` is the value of
`time.Now().Unix()` read by the call. -/
def Jwks.verify (L : Lib KeySet JWS E) (j : Jwks KeySet) (now : Int) (token : String) :
    Bool × Option (GoError E) :=
  match L.ParseSigned token with
  | .error err => (false, some (.lib err))
  | .ok jws =>
    match L.Verify jws j.keys with
    | .error err => (false, some (.lib err))
    | .ok data =>
      match L.UnmarshalJwt data with
      | .error err => (false, some (.lib err))
      | .ok jwt =>
        if now > jwt.Expired then
          (false, some (.new tokenExpred))
        else
          (true, none)

/-- Function `func NewJwksCache(data []byte) (*JwksCache, error)`. -/
def NewJwksCache (L : Lib KeySet JWS E) (data : Bytes) :
    Option (JwksCache KeySet) × Option (GoError E) :=
  match NewJwks L data with
  | (_, some err) => (none, some err)
  | (keys, none) => (some ⟨keys⟩, none)

/-! ### The same method with its state made explicit

The definition `Jwks.verify` above takes the libraries as functions of their
arguments and the clock reading as an argument.  The definition below makes
no such choice: every library call may read and change a state `S` of its own,
the object the receiver points to is part of the state, and the clock is read
from the state at line 87. -/

/-- The library calls of `verify`, each with the library state it finds and the
one it leaves.  `Verify` receives `j.keys` by value, as a Go call does. -/
structure LibM (KeySet JWS E S : Type) where
  ParseSigned : String → S → Except E JWS × S
  Verify : JWS → KeySet → S → Except E Bytes × S
  UnmarshalJwt : Bytes → S → Except E Jwt × S

/-- What a call of `verify` can read or change: the object `*j` behind the
receiver, the state of the libraries, and the value `time.Now().Unix()` returns
when it is read. -/
structure World (KeySet S : Type) where
  jwks : Jwks KeySet
  lib : S
  clock : Int

/-- Function `func (j *Jwks) verify(token string) (bool, error)` with explicit
state passing, statement by statement: the result of the call and the state it
leaves.  Each library call starts in the library state left by the previous
statement; the clock is read only when line 87 is reached. -/
def verifyM {S : Type} (L : LibM KeySet JWS E S) (token : String) (w : World KeySet S) :
    (Bool × Option (GoError E)) × World KeySet S :=
  -- jws, err := jose.ParseSigned(token)
  match L.ParseSigned token w.lib with
  | (.error err, s₁) => ((false, some (.lib err)), { w with lib := s₁ })
  | (.ok jws, s₁) =>
    -- data, err := jws.Verify(j.keys)
    match L.Verify jws w.jwks.keys s₁ with
    | (.error err, s₂) => ((false, some (.lib err)), { w with lib := s₂ })
    | (.ok data, s₂) =>
      -- jwt := Jwt{}; err := json.Unmarshal(data, &jwt)
      match L.UnmarshalJwt data s₂ with
      | (.error err, s₃) => ((false, some (.lib err)), { w with lib := s₃ })
      | (.ok jwt, s₃) =>
        -- time.Now().Unix() > int64(jwt.Expired)
        if w.clock > jwt.Expired then
          ((false, some (.new tokenExpred)), { w with lib := s₃ })
        else
          ((true, none), { w with lib := s₃ })

/-- The libraries as functions of their arguments, as they answer in state `s`. -/
def LibM.pureAt {S : Type} (L : LibM KeySet JWS E S) (s : S) (rest : Lib KeySet JWS E) :
    Lib KeySet JWS E :=
  { rest with
    ParseSigned := fun token => (L.ParseSigned token s).1
    Verify := fun jws keys => (L.Verify jws keys s).1
    UnmarshalJwt := fun data => (L.UnmarshalJwt data s).1 }

/-- The struct held by the local variable `output` of `func output` when it is
handed to `json.Marshal`. -/
def outputValue (success : Bool) : AuthScriptOutput :=
  if success then
    { Success := true }
  else
    { Success := false, Error := ErrAuthFailed.Error }

/-- Function `func output(success bool)`: the sequence of `os.Stdout.Write` calls it
makes (none when `json.Marshal` fails, else one line). -/
def output (L : Lib KeySet JWS E) (success : Bool) : List Bytes :=
  match L.MarshalOutput (outputValue success) with
  | .error _ => []
  | .ok message => [message ++ [10]]

/-- Call `reader.ReadBytes(delim)` on a reader over the bytes `stdin`: the bytes up to
and including the first `delim`, or `none` (error `io.EOF`) when the input ends
before a delimiter. -/
def ReadBytes (delim : UInt8) : Bytes → Option Bytes
  | [] => none
  | b :: rest => if b = delim then some [b] else (ReadBytes delim rest).map (b :: ·)

/-- How a function call ends: it returns a value, or the Go runtime panics on a
nil pointer dereference. -/
inductive Run (α : Type) where
  | ret (a : α)
  | nilDeref
deriving DecidableEq, Repr

/-- Function `func readUser() (input *AuthScriptInput, err error)`; `stdin` is the content
of standard input. -/
def readUser (L : Lib KeySet JWS E) (stdin : Bytes) :
    Run (Option AuthScriptInput × Option (GoError E)) :=
  match ReadBytes 10 stdin with
  | none => .ret (none, some .eof)
  | some line =>
    match L.UnmarshalInput line with
    | .error err => .ret (none, some (.lib err))
    | .ok none => .nilDeref
    | .ok (some input) =>
      if input.AccountName == "" || input.Passphrase == "" then
        .ret (none, some (.new ⟨"AccountName/Passphrase cannot be empty"⟩))
      else
        .ret (some input, none)

/-- How a run of `main` ends. -/
inductive Outcome (E : Type) where
  /-- One of the four `panic(err)` statements of `main` was reached. -/
  | panicked (err : GoError E)
  /-- The Go runtime panicked on a nil pointer dereference. -/
  | nilDeref
  /-- The function `main` returned; `stdout` lists the writes to standard output. -/
  | returned (stdout : List Bytes)
deriving DecidableEq, Repr

/-- The last two statements of `main`, from `success, err := jwks.verify(...)`. -/
def mainVerify (L : Lib KeySet JWS E) (now : Int) (jwks : Jwks KeySet)
    (input : AuthScriptInput) : Outcome E :=
  match jwks.verify L now input.Passphrase with
  | (_, some err) => .panicked err
  | (success, none) => .returned (output L success)

/-- The statements of `main` from `input, err := readUser()` on. -/
def mainRequest (L : Lib KeySet JWS E) (now : Int) (stdin : Bytes)
    (jwks : Option (Jwks KeySet)) : Outcome E :=
  match readUser L stdin with
  | .nilDeref => .nilDeref
  | .ret (_, some err) => .panicked err
  | .ret (none, none) => .nilDeref
  | .ret (some input, none) =>
    match jwks with
    | some jwks => mainVerify L now jwks input
    | none =>
      -- nil receiver: `verify` dereferences `j` only after `jose.ParseSigned`
      match L.ParseSigned input.Passphrase with
      | .error err => .panicked (.lib err)
      | .ok _ => .nilDeref

/-- Function `func main()`; `args` is `os.Args`, `now` the clock reading taken by `verify`
and `stdin` the content of standard input. -/
def main (L : Lib KeySet JWS E) (args : List String) (now : Int) (stdin : Bytes) : Outcome E :=
  match NewConfig L args with
  | (_, some err) => .panicked err
  | (config, none) =>
    match NewJwks L (bytesOf config.JwkKeys) with
    | (_, some err) => .panicked err
    | (jwks, none) => mainRequest L now stdin jwks

/-! ## A small concrete library

A miniature instance of `Lib`, used to evaluate the program on concrete inputs.
A token is three dot-separated segments `header.claims.signer`: the claims
segment is the decimal expiry time and the signer segment the decimal number of
the signing key; a key set is the list of trusted key numbers.  As with
encoding/json, an expiry time that does not fit the 64-bit Go `int` of the field
`Jwt.Expired` does not decode. -/

/-- The error values of the miniature library. -/
inductive DemoErr where
  | segments
  | encoding
  | signature
  | claims
  | json
  | noFile
deriving DecidableEq, Repr

/-- A parsed token of the miniature library. -/
structure DemoJWS where
  payload : Bytes
  signer : Nat
deriving DecidableEq, Repr

/-- Splits a text at every dot. -/
def splitDots : List Char → List (List Char)
  | [] => [[]]
  | c :: cs =>
    match splitDots cs with
    | [] => [[c]]
    | seg :: segs => if c = '.' then [] :: seg :: segs else (c :: seg) :: segs

/-- Reads the decimal digits `ds` after the digits already read as `acc`. -/
def readDigits (acc : Nat) : List Nat → Option Nat
  | [] => some acc
  | d :: ds => if 48 ≤ d ∧ d ≤ 57 then readDigits (10 * acc + (d - 48)) ds else none

/-- A non-empty run of decimal digits (given as character codes) as a number. -/
def readNumber (ds : List Nat) : Option Nat :=
  if ds = [] then none else readDigits 0 ds

/-- The text held by a byte string of character codes. -/
def textOf (data : Bytes) : String := String.mk (data.map fun b => Char.ofNat b.toNat)

/-- Splits a request line `account token` at the first blank, dropping the line end. -/
def splitBlank : Bytes → Bytes × Option Bytes
  | [] => ([], none)
  | b :: rest =>
    if b = 32 then ([], some (rest.filter fun c => c != 10))
    else ((splitBlank rest).1.cons b, (splitBlank rest).2)

/-- The miniature library. -/
def demoLib : Lib (List Nat) DemoJWS DemoErr where
  ParseSigned token :=
    match splitDots token.toList with
    | [_, claims, signer] =>
      match readNumber (signer.map Char.toNat) with
      | some k => .ok ⟨claims.map fun c => c.toNat.toUInt8, k⟩
      | none => .error .encoding
    | _ => .error .segments
  Verify jws keys := if jws.signer ∈ keys then .ok jws.payload else .error .signature
  UnmarshalJwt data :=
    match readNumber (data.map UInt8.toNat) with
    | some n => if n < 9223372036854775808 then .ok ⟨"", n, 0, ""⟩ else .error .claims
    | none => .error .claims
  UnmarshalKeySet data := if data = [] then .error .json else .ok (data.map UInt8.toNat)
  UnmarshalInput line :=
    match splitBlank line with
    | (_, none) => .error .json
    | (account, some token) => .ok (some ⟨textOf account, textOf token, "", ""⟩)
  UnmarshalConfig data := (⟨textOf data, "", 0, ""⟩, none)
  MarshalOutput o := .ok ((if o.Success then 49 else 48) :: bytesOf o.Error)
  Open name := if name = "keys" then .ok [55] else if name = "empty" then .ok [] else .error .noFile

/-- The miniature library with a state of its own: a counter of the calls made. -/
def demoLibM : LibM (List Nat) DemoJWS DemoErr Nat where
  ParseSigned token n := (demoLib.ParseSigned token, n + 1)
  Verify jws keys n := (demoLib.Verify jws keys, n + 1)
  UnmarshalJwt data n := (demoLib.UnmarshalJwt data, n + 1)

/-! ## Shared lemmas -/

/-- Once the token parses, its signature verifies and its claims decode, the
result of `verify` is decided by the comparison of the clock with `exp`. -/
theorem verify_of_decoded (L : Lib KeySet JWS E) (j : Jwks KeySet) (now : Int) (token : String)
    (jws : JWS) (data : Bytes) (jwt : Jwt)
    (hparse : L.ParseSigned token = .ok jws)
    (hsig : L.Verify jws j.keys = .ok data)
    (hclaims : L.UnmarshalJwt data = .ok jwt) :
    j.verify L now token =
      if now > jwt.Expired then (false, some (.new tokenExpred)) else (true, none) := by
  simp only [Jwks.verify, hparse, hsig, hclaims]

/-- The boolean returned by `verify` is `true` exactly when the error is `nil`. -/
theorem verify_fst_iff (L : Lib KeySet JWS E) (j : Jwks KeySet) (now : Int) (token : String) :
    (j.verify L now token).1 = true ↔ (j.verify L now token).2 = none := by
  unfold Jwks.verify
  split
  · simp
  · split
    · simp
    · split
      · simp
      · split <;> simp

/-- The tail of `main` after a successful `verify` always calls `output(true)`. -/
theorem mainVerify_eq (L : Lib KeySet JWS E) (now : Int) (jwks : Jwks KeySet)
    (input : AuthScriptInput) :
    mainVerify L now jwks input =
      match (jwks.verify L now input.Passphrase).2 with
      | some err => .panicked err
      | none => .returned (output L true) := by
  have h := verify_fst_iff L jwks now input.Passphrase
  unfold mainVerify
  rcases hv : jwks.verify L now input.Passphrase with ⟨b, _ | err⟩
  · rw [hv] at h
    have hb : b = true := h.2 rfl
    simp [hb]
  · simp

/-- What `readUser` returns once a line was read and decoded to a request. -/
theorem readUser_of_decoded (L : Lib KeySet JWS E) (stdin line : Bytes) (input : AuthScriptInput)
    (hline : ReadBytes 10 stdin = some line)
    (hjson : L.UnmarshalInput line = .ok (some input)) :
    readUser L stdin =
      if input.AccountName == "" || input.Passphrase == "" then
        .ret (none, some (.new ⟨"AccountName/Passphrase cannot be empty"⟩))
      else
        .ret (some input, none) := by
  simp only [readUser, hline, hjson]

/-- A call of `verify` changes neither the object behind the receiver nor the
clock, whatever the libraries do with their own state. -/
theorem verifyM_frame {S : Type} (L : LibM KeySet JWS E S) (token : String)
    (w : World KeySet S) :
    (verifyM L token w).2.jwks = w.jwks ∧ (verifyM L token w).2.clock = w.clock := by
  unfold verifyM
  split
  · exact ⟨rfl, rfl⟩
  · split
    · exact ⟨rfl, rfl⟩
    · split
      · exact ⟨rfl, rfl⟩
      · split <;> exact ⟨rfl, rfl⟩

/-- When the answers of the library calls do not depend on the library state,
the result of the state-passing `verify` is that of `Jwks.verify` run on the
key set and the clock reading found in the state. -/
theorem verifyM_result {S : Type} (L : LibM KeySet JWS E S)
    (hparse : ∀ token s s', (L.ParseSigned token s).1 = (L.ParseSigned token s').1)
    (hverify : ∀ jws keys s s', (L.Verify jws keys s).1 = (L.Verify jws keys s').1)
    (hjson : ∀ data s s', (L.UnmarshalJwt data s).1 = (L.UnmarshalJwt data s').1)
    (rest : Lib KeySet JWS E) (s₀ : S) (token : String) (w : World KeySet S) :
    (verifyM L token w).1 = w.jwks.verify (L.pureAt s₀ rest) w.clock token := by
  unfold verifyM Jwks.verify LibM.pureAt
  simp only
  rw [hparse token s₀ w.lib]
  rcases hp : L.ParseSigned token w.lib with ⟨_ | jws, s₁⟩
  · rfl
  · simp only
    rw [hverify jws w.jwks.keys s₀ s₁]
    rcases hv : L.Verify jws w.jwks.keys s₁ with ⟨_ | data, s₂⟩
    · rfl
    · simp only
      rw [hjson data s₀ s₂]
      rcases hj : L.UnmarshalJwt data s₂ with ⟨_ | jwt, s₃⟩
      · rfl
      · simp only
        split <;> rfl

/-! ## Expiry (C1, C2, C3) -/

/-- Counterexample to C1 as stated: the token parses as a compact signed token,
it is signed by key 7 of the key set `[7]`, and its expiry claim is the number
9223372036854775808 (2^63), strictly greater than the clock reading 100.  The
number does not fit the Go `int` of the field `Jwt.Expired`, so the claims do
not decode and `verify` returns `false` with the decoding error. -/
theorem verify_undecodable_exp_counterexample :
    demoLib.ParseSigned "h.9223372036854775808.7" =
      .ok ⟨[57, 50, 50, 51, 51, 55, 50, 48, 51, 54, 56, 53, 52, 55, 55, 53, 56, 48, 56], 7⟩ ∧
    7 ∈ [7] ∧
    demoLib.Verify
        ⟨[57, 50, 50, 51, 51, 55, 50, 48, 51, 54, 56, 53, 52, 55, 55, 53, 56, 48, 56], 7⟩ [7] =
      .ok [57, 50, 50, 51, 51, 55, 50, 48, 51, 54, 56, 53, 52, 55, 55, 53, 56, 48, 56] ∧
    readNumber [57, 50, 50, 51, 51, 55, 50, 48, 51, 54, 56, 53, 52, 55, 55, 53, 56, 48, 56] =
      some 9223372036854775808 ∧
    (9223372036854775808 : Int) > 100 ∧
    (⟨[7]⟩ : Jwks (List Nat)).verify demoLib 100 "h.9223372036854775808.7" =
      (false, some (.lib .claims)) ∧
    (⟨[7]⟩ : Jwks (List Nat)).verify demoLib 100 "h.9223372036854775808.7" ≠ (true, none) :=
  ⟨rfl, by decide, rfl, by decide, by decide, by decide, by decide⟩

/-- C1 (amended): for every key set, every token text for which
`jose.ParseSigned` succeeds, `jws.Verify` against the key set returns the
payload and the payload decodes into `Jwt` (`json.Unmarshal` succeeds), and
every clock reading `now`: if the decoded expiry `exp` is strictly greater than
`now`, then `verify` returns `(true, nil)`. -/
theorem verify_valid_of_unexpired (L : Lib KeySet JWS E) (j : Jwks KeySet) (now : Int)
    (token : String) (jws : JWS) (data : Bytes) (jwt : Jwt)
    (hparse : L.ParseSigned token = .ok jws)
    (hsig : L.Verify jws j.keys = .ok data)
    (hclaims : L.UnmarshalJwt data = .ok jwt)
    (hexp : jwt.Expired > now) :
    j.verify L now token = (true, none) := by
  rw [verify_of_decoded L j now token jws data jwt hparse hsig hclaims]
  have h : ¬ now > jwt.Expired := by omega
  simp [h]

/-- Witness of C1 (amended): a token signed by key 7, expiring at 100, checked at 99. -/
theorem verify_valid_of_unexpired_witness :
    demoLib.ParseSigned "h.100.7" = .ok ⟨[49, 48, 48], 7⟩ ∧
    demoLib.Verify ⟨[49, 48, 48], 7⟩ [7] = .ok [49, 48, 48] ∧
    demoLib.UnmarshalJwt [49, 48, 48] = .ok ⟨"", 100, 0, ""⟩ ∧
    (100 : Int) > 99 ∧
    (⟨[7]⟩ : Jwks (List Nat)).verify demoLib 99 "h.100.7" = (true, none) :=
  ⟨rfl, rfl, rfl, by decide,
    verify_valid_of_unexpired demoLib ⟨[7]⟩ 99 "h.100.7" ⟨[49, 48, 48], 7⟩ [49, 48, 48]
      ⟨"", 100, 0, ""⟩ rfl rfl rfl (by decide)⟩

/-- C2: for every token whose signature verifies and whose claims decode with
expiry `exp`, and every clock reading `now`: `verify` rejects the token with the
expiry failure if and only if `now > exp`; otherwise it returns `(true, nil)`. -/
theorem verify_expired_iff (L : Lib KeySet JWS E) (j : Jwks KeySet) (now : Int)
    (token : String) (jws : JWS) (data : Bytes) (jwt : Jwt)
    (hparse : L.ParseSigned token = .ok jws)
    (hsig : L.Verify jws j.keys = .ok data)
    (hclaims : L.UnmarshalJwt data = .ok jwt) :
    (j.verify L now token = (false, some (.new tokenExpred)) ↔ now > jwt.Expired) ∧
    (¬ now > jwt.Expired → j.verify L now token = (true, none)) := by
  rw [verify_of_decoded L j now token jws data jwt hparse hsig hclaims]
  by_cases h : now > jwt.Expired <;> simp [h]

/-- Witness of C2: a token signed by key 7, expiring at 100, checked at 101. -/
theorem verify_expired_iff_witness :
    demoLib.ParseSigned "h.100.7" = .ok ⟨[49, 48, 48], 7⟩ ∧
    demoLib.Verify ⟨[49, 48, 48], 7⟩ [7] = .ok [49, 48, 48] ∧
    demoLib.UnmarshalJwt [49, 48, 48] = .ok ⟨"", 100, 0, ""⟩ ∧
    (((⟨[7]⟩ : Jwks (List Nat)).verify demoLib 101 "h.100.7" =
        (false, some (.new tokenExpred)) ↔ (101 : Int) > 100) ∧
      (¬ (101 : Int) > 100 →
        (⟨[7]⟩ : Jwks (List Nat)).verify demoLib 101 "h.100.7" = (true, none))) :=
  ⟨rfl, rfl, rfl,
    verify_expired_iff demoLib ⟨[7]⟩ 101 "h.100.7" ⟨[49, 48, 48], 7⟩ [49, 48, 48]
      ⟨"", 100, 0, ""⟩ rfl rfl rfl⟩

/-- Counterexample to C3 as stated: a token signed by the trusted key 7 whose
claims decode with `exp = 100`, checked at the clock reading `now = 100`
(so `exp <= now`), is accepted: `verify` returns `(true, nil)`, not the
token-expired failure. -/
theorem verify_boundary_counterexample :
    demoLib.ParseSigned "h.100.7" = .ok ⟨[49, 48, 48], 7⟩ ∧
    demoLib.Verify ⟨[49, 48, 48], 7⟩ [7] = .ok [49, 48, 48] ∧
    demoLib.UnmarshalJwt [49, 48, 48] = .ok ⟨"", 100, 0, ""⟩ ∧
    (100 : Int) ≤ 100 ∧
    (⟨[7]⟩ : Jwks (List Nat)).verify demoLib 100 "h.100.7" = (true, none) ∧
    (⟨[7]⟩ : Jwks (List Nat)).verify demoLib 100 "h.100.7" ≠
      (false, some (.new tokenExpred)) :=
  ⟨rfl, rfl, rfl, by decide, by decide, by decide⟩

/-- C3 (amended): for every token whose signature verifies and whose claims
decode, and every clock reading `now`: if `exp < now` then `verify` returns
`false` with the token-expired failure; at the boundary `exp = now` the token
is still accepted, `verify` returns `(true, nil)`. -/
theorem verify_expired_of_lt (L : Lib KeySet JWS E) (j : Jwks KeySet) (now : Int)
    (token : String) (jws : JWS) (data : Bytes) (jwt : Jwt)
    (hparse : L.ParseSigned token = .ok jws)
    (hsig : L.Verify jws j.keys = .ok data)
    (hclaims : L.UnmarshalJwt data = .ok jwt) :
    (jwt.Expired < now → j.verify L now token = (false, some (.new tokenExpred))) ∧
    (jwt.Expired = now → j.verify L now token = (true, none)) := by
  rw [verify_of_decoded L j now token jws data jwt hparse hsig hclaims]
  constructor
  · intro h
    simp [h]
  · intro h
    simp [h]

/-- Witness of C3 (amended): a token signed by key 7, expiring at 100, checked
at 101 (rejected as expired). -/
theorem verify_expired_of_lt_witness :
    demoLib.ParseSigned "h.100.7" = .ok ⟨[49, 48, 48], 7⟩ ∧
    demoLib.Verify ⟨[49, 48, 48], 7⟩ [7] = .ok [49, 48, 48] ∧
    demoLib.UnmarshalJwt [49, 48, 48] = .ok ⟨"", 100, 0, ""⟩ ∧
    (100 : Int) < 101 ∧
    (⟨[7]⟩ : Jwks (List Nat)).verify demoLib 101 "h.100.7" =
      (false, some (.new tokenExpred)) :=
  ⟨rfl, rfl, rfl, by decide,
    (verify_expired_of_lt demoLib ⟨[7]⟩ 101 "h.100.7" ⟨[49, 48, 48], 7⟩ [49, 48, 48]
      ⟨"", 100, 0, ""⟩ rfl rfl rfl).1 (by decide)⟩

/-! ## Verification failures in `main` (C4) -/

/-- C4, the code at a failing input: the configuration loads, the key set parses
(trusted key 55) and the request `bob h.100.55` with non-empty account name and
passphrase is read; the token expired at 100 and the clock reads 500.  The run
of `main` ends in `panic(err)` with the error of `verify` and nothing is
written, although `output(false)` would write the response with
`success = false` and the non-empty error `auth failed`. -/
theorem main_panics_on_expired_token :
    NewConfig demoLib ["auth", "keys"] = (⟨"7", "", 0, ""⟩, none) ∧
    NewJwks demoLib (bytesOf "7") = (some ⟨[55]⟩, none) ∧
    readUser demoLib (bytesOf "bob h.100.55\n") =
      .ret (some ⟨"bob", "h.100.55", "", ""⟩, none) ∧
    (⟨[55]⟩ : Jwks (List Nat)).verify demoLib 500 "h.100.55" =
      (false, some (.new tokenExpred)) ∧
    main demoLib ["auth", "keys"] 500 (bytesOf "bob h.100.55\n") =
      .panicked (.new tokenExpred) ∧
    (∀ stdout, main demoLib ["auth", "keys"] 500 (bytesOf "bob h.100.55\n") ≠
      .returned stdout) ∧
    output demoLib false =
      [[48, 97, 117, 116, 104, 32, 102, 97, 105, 108, 101, 100, 10]] :=
  ⟨rfl, rfl, rfl, rfl, rfl, fun _ h => (nomatch h), rfl⟩

/-! ## Order of the checks (C5) -/

/-- Counterexample to C5 as stated: the token `h.x.7` has unparseable claims
(`x` is not a claims document).  With the key set `[7]` the signature verifies
and `verify` reports the claims error; with the key set `[8]` the signature
check, which runs before the claims are decoded, reports a signature error.
The result of a token with unparseable claims depends on the key set. -/
theorem verify_claims_order_counterexample :
    demoLib.ParseSigned "h.x.7" = .ok ⟨[120], 7⟩ ∧
    demoLib.UnmarshalJwt [120] = .error .claims ∧
    (⟨[7]⟩ : Jwks (List Nat)).verify demoLib 0 "h.x.7" = (false, some (.lib .claims)) ∧
    (⟨[8]⟩ : Jwks (List Nat)).verify demoLib 0 "h.x.7" = (false, some (.lib .signature)) ∧
    (⟨[7]⟩ : Jwks (List Nat)).verify demoLib 0 "h.x.7" ≠
      (⟨[8]⟩ : Jwks (List Nat)).verify demoLib 0 "h.x.7" :=
  ⟨rfl, rfl, rfl, rfl, by decide⟩

/-- C5 (amended): `verify` short-circuits in the order compact parse
(`jose.ParseSigned`), signature check, claims decoding, expiry check, and the
failure it returns is that of the first failing step in this order.
* A token that fails `jose.ParseSigned` is rejected with the parse error without
  any later step being run: the result is the same for every key set, every
  clock reading and every choice of the later library steps.
* A token that parses and fails the signature check is rejected with the
  signature error, whatever the claims decoder and the clock.
* A token whose claims do not decode is rejected with the decoding error only
  after its signature verified; the result does not depend on the clock.
* Otherwise the result is that of the expiry check. -/
theorem verify_short_circuit (L : Lib KeySet JWS E) (j : Jwks KeySet) (now : Int)
    (token : String) :
    (∀ e, L.ParseSigned token = .error e →
      ∀ (L' : Lib KeySet JWS E) (j' : Jwks KeySet) (now' : Int),
        L'.ParseSigned = L.ParseSigned →
        j'.verify L' now' token = (false, some (.lib e))) ∧
    (∀ jws e, L.ParseSigned token = .ok jws → L.Verify jws j.keys = .error e →
      ∀ (L' : Lib KeySet JWS E) (now' : Int),
        L'.ParseSigned = L.ParseSigned → L'.Verify = L.Verify →
        j.verify L' now' token = (false, some (.lib e))) ∧
    (∀ jws data e, L.ParseSigned token = .ok jws → L.Verify jws j.keys = .ok data →
      L.UnmarshalJwt data = .error e →
      ∀ now' : Int, j.verify L now' token = (false, some (.lib e))) ∧
    (∀ jws data jwt, L.ParseSigned token = .ok jws → L.Verify jws j.keys = .ok data →
      L.UnmarshalJwt data = .ok jwt →
      j.verify L now token =
        if now > jwt.Expired then (false, some (.new tokenExpred)) else (true, none)) := by
  refine ⟨?_, ?_, ?_, ?_⟩
  · intro e hparse L' j' now' hP
    simp only [Jwks.verify, hP, hparse]
  · intro jws e hparse hsig L' now' hP hV
    simp only [Jwks.verify, hP, hV, hparse, hsig]
  · intro jws data e hparse hsig hclaims now'
    simp only [Jwks.verify, hparse, hsig, hclaims]
  · intro jws data jwt hparse hsig hclaims
    exact verify_of_decoded L j now token jws data jwt hparse hsig hclaims

/-- Witness of C5 (amended): the text `garbage` has one segment; it is rejected
with the parse error under another key set and another clock reading. -/
theorem verify_short_circuit_witness :
    demoLib.ParseSigned "garbage" = .error .segments ∧
    (⟨[8]⟩ : Jwks (List Nat)).verify demoLib 5 "garbage" = (false, some (.lib .segments)) :=
  ⟨rfl, (verify_short_circuit demoLib ⟨[7]⟩ 0 "garbage").1 .segments rfl demoLib ⟨[8]⟩ 5 rfl⟩

/-! ## The response (C6) -/

/-- C6: for both values of its argument, `output(success)` marshals and writes,
as one line, a response whose `success` field equals the argument and whose
`error` field is the empty string exactly when `success` is true; when
`success` is false the field is the non-empty reason `auth failed`.  The
`accountName` field of the response is always empty.  Nothing is written only
when `json.Marshal` fails. -/
theorem output_response (L : Lib KeySet JWS E) (success : Bool) :
    ∃ response : AuthScriptOutput,
      response.Success = success ∧
      (response.Error = "" ↔ success = true) ∧
      response.Error = (if success then "" else "auth failed") ∧
      "auth failed" ≠ "" ∧
      response.AccountName = "" ∧
      output L success =
        match L.MarshalOutput response with
        | .error _ => []
        | .ok message => [message ++ [10]] := by
  refine ⟨outputValue success, ?_, ?_, ?_, by decide, ?_, rfl⟩ <;>
    cases success <;> decide

/-! ## The account name (C7) -/

/-- Counterexample to C7 as stated: two requests carry the same token
`h.100.55` (valid at clock reading 50 under the trusted key 55) and differ only
in the account name, empty in the first and `bob` in the second.  The first run
of `main` panics in `readUser`'s caller with the empty-field error, the second
returns after writing the success response. -/
theorem accountName_empty_counterexample :
    demoLib.UnmarshalInput (bytesOf " h.100.55\n") = .ok (some ⟨"", "h.100.55", "", ""⟩) ∧
    demoLib.UnmarshalInput (bytesOf "bob h.100.55\n") =
      .ok (some ⟨"bob", "h.100.55", "", ""⟩) ∧
    main demoLib ["auth", "keys"] 50 (bytesOf " h.100.55\n") =
      .panicked (.new ⟨"AccountName/Passphrase cannot be empty"⟩) ∧
    main demoLib ["auth", "keys"] 50 (bytesOf "bob h.100.55\n") = .returned [[49, 10]] ∧
    main demoLib ["auth", "keys"] 50 (bytesOf " h.100.55\n") ≠
      main demoLib ["auth", "keys"] 50 (bytesOf "bob h.100.55\n") :=
  ⟨rfl, rfl, rfl, rfl, by decide⟩

/-- C7 (amended): the outcome does not depend on a non-empty account name: for
every configuration, clock reading and token, two requests that carry the same
token (passphrase) and whose account names are both non-empty make `main` end
in the same outcome.  A request whose account name is empty is refused by
`readUser` before `verify` is called, whatever its token. -/
theorem outcome_independent_of_accountName (L : Lib KeySet JWS E) (args : List String)
    (now : Int) (stdin₁ stdin₂ line₁ line₂ : Bytes) (in₁ in₂ : AuthScriptInput)
    (hline₁ : ReadBytes 10 stdin₁ = some line₁)
    (hjson₁ : L.UnmarshalInput line₁ = .ok (some in₁))
    (hline₂ : ReadBytes 10 stdin₂ = some line₂)
    (hjson₂ : L.UnmarshalInput line₂ = .ok (some in₂))
    (htoken : in₁.Passphrase = in₂.Passphrase) :
    (in₁.AccountName ≠ "" → in₂.AccountName ≠ "" →
      main L args now stdin₁ = main L args now stdin₂) ∧
    (in₁.AccountName = "" → ∀ jwks : Option (Jwks KeySet),
      mainRequest L now stdin₁ jwks =
        .panicked (.new ⟨"AccountName/Passphrase cannot be empty"⟩)) := by
  constructor
  · intro hn₁ hn₂
    have hreq : ∀ jwks : Option (Jwks KeySet),
        mainRequest L now stdin₁ jwks = mainRequest L now stdin₂ jwks := by
      intro jwks
      simp only [mainRequest, readUser_of_decoded L stdin₁ line₁ in₁ hline₁ hjson₁,
        readUser_of_decoded L stdin₂ line₂ in₂ hline₂ hjson₂]
      by_cases hp : in₂.Passphrase = ""
      · simp [hp, htoken]
      · cases jwks with
        | none => simp [hp, htoken, hn₁, hn₂]
        | some jwks => simp [hp, htoken, hn₁, hn₂, mainVerify]
    simp only [main, hreq]
  · intro he jwks
    simp [mainRequest, readUser_of_decoded L stdin₁ line₁ in₁ hline₁ hjson₁, he]

/-- Witness of C7 (amended): the requests `bob h.100.55` and `eve h.100.55` at
clock reading 50. -/
theorem outcome_independent_of_accountName_witness :
    ReadBytes 10 (bytesOf "bob h.100.55\n") = some (bytesOf "bob h.100.55\n") ∧
    demoLib.UnmarshalInput (bytesOf "bob h.100.55\n") =
      .ok (some ⟨"bob", "h.100.55", "", ""⟩) ∧
    ReadBytes 10 (bytesOf "eve h.100.55\n") = some (bytesOf "eve h.100.55\n") ∧
    demoLib.UnmarshalInput (bytesOf "eve h.100.55\n") =
      .ok (some ⟨"eve", "h.100.55", "", ""⟩) ∧
    main demoLib ["auth", "keys"] 50 (bytesOf "bob h.100.55\n") =
      main demoLib ["auth", "keys"] 50 (bytesOf "eve h.100.55\n") :=
  ⟨rfl, rfl, rfl, rfl,
    (outcome_independent_of_accountName demoLib ["auth", "keys"] 50
      (bytesOf "bob h.100.55\n") (bytesOf "eve h.100.55\n")
      (bytesOf "bob h.100.55\n") (bytesOf "eve h.100.55\n")
      ⟨"bob", "h.100.55", "", ""⟩ ⟨"eve", "h.100.55", "", ""⟩ rfl rfl rfl rfl rfl).1
      (by decide) (by decide)⟩

/-! ## Construction of the key set (C8) -/

/-- C8: construction of the key set fails when no key source is configured.
The behaviour of encoding/json on an empty document (`json.Unmarshal` reports
`unexpected end of JSON input`) is the hypothesis `hjson`.  For every
configuration whose static key-set document `jwk_keys` is empty (the URL
`jwk_url` is never read by the program, so this covers the configurations in
which both are absent), `NewJwks` and `NewJwksCache` applied to the document
return an error and no key set, and `main` panics with that error whatever
standard input holds, that is, before any request is read. -/
theorem keyset_construction_fails_when_absent (L : Lib KeySet JWS E)
    (hjson : ∀ keys, L.UnmarshalKeySet [] ≠ .ok keys)
    (args : List String) (config : Config)
    (hcfg : NewConfig L args = (config, none))
    (hkeys : config.JwkKeys = "") :
    ∃ err, NewJwks L (bytesOf config.JwkKeys) = (none, some err) ∧
      NewJwksCache L (bytesOf config.JwkKeys) = (none, some err) ∧
      ∀ (now : Int) (stdin : Bytes), main L args now stdin = .panicked err := by
  have hbytes : bytesOf config.JwkKeys = [] := by rw [hkeys]; decide
  rw [hbytes]
  cases hk : L.UnmarshalKeySet [] with
  | ok keys => exact absurd hk (hjson keys)
  | error e =>
    have hnew : NewJwks L [] = (none, some (.lib e)) := by simp only [NewJwks, hk]
    refine ⟨.lib e, hnew, ?_, ?_⟩
    · simp only [NewJwksCache, hnew]
    · intro now stdin
      simp only [main, hcfg, hbytes, hnew]

/-- Witness of C8: the program started without a configuration file argument
(zero configuration), and started on an empty configuration document. -/
theorem keyset_construction_fails_when_absent_witness :
    (∀ keys, demoLib.UnmarshalKeySet [] ≠ .ok keys) ∧
    NewConfig demoLib ["auth"] = (⟨"", "", 0, ""⟩, none) ∧
    ∃ err, NewJwks demoLib (bytesOf "") = (none, some err) ∧
      NewJwksCache demoLib (bytesOf "") = (none, some err) ∧
      ∀ (now : Int) (stdin : Bytes), main demoLib ["auth"] now stdin = .panicked err :=
  ⟨fun _ h => (nomatch h), rfl,
    keyset_construction_fails_when_absent demoLib (fun _ h => (nomatch h)) ["auth"]
      ⟨"", "", 0, ""⟩ rfl rfl⟩

/-! ## Determinism (C9) -/

/-- C9: `verify` is deterministic and keeps no hidden state.  The libraries may
keep state of their own between calls; what is asked of them is that the answer
of `jose.ParseSigned`, `jws.Verify` and `json.Unmarshal` depends only on the
arguments.  Then for every token text, key set and clock reading:
* a call leaves the key set held by the `Jwks` (and the clock) as it found them;
* a second call with the same token, made in the state the first call left,
  returns the same result (same validity, same failure) and again leaves the
  key set as it was;
* more generally a call returns the same result in every state with the same
  key set and the same clock reading, whatever the state of the libraries. -/
theorem verify_deterministic {S : Type} (L : LibM KeySet JWS E S)
    (hparse : ∀ token s s', (L.ParseSigned token s).1 = (L.ParseSigned token s').1)
    (hverify : ∀ jws keys s s', (L.Verify jws keys s).1 = (L.Verify jws keys s').1)
    (hjson : ∀ data s s', (L.UnmarshalJwt data s).1 = (L.UnmarshalJwt data s').1)
    (token : String) (w : World KeySet S) :
    (verifyM L token w).2.jwks = w.jwks ∧
    (verifyM L token (verifyM L token w).2).1 = (verifyM L token w).1 ∧
    (verifyM L token (verifyM L token w).2).2.jwks = w.jwks ∧
    (∀ w' : World KeySet S, w'.jwks = w.jwks → w'.clock = w.clock →
      (verifyM L token w').1 = (verifyM L token w).1) := by
  have hframe := verifyM_frame L token w
  have hsame : ∀ w' : World KeySet S, w'.jwks = w.jwks → w'.clock = w.clock →
      (verifyM L token w').1 = (verifyM L token w).1 := by
    intro w' hk hc
    have rest : Lib KeySet JWS E :=
      { ParseSigned := fun t => (L.ParseSigned t w.lib).1
        Verify := fun jws keys => (L.Verify jws keys w.lib).1
        UnmarshalJwt := fun data => (L.UnmarshalJwt data w.lib).1
        UnmarshalKeySet := fun _ => .ok w.jwks.keys
        UnmarshalInput := fun _ => .ok none
        UnmarshalConfig := fun _ => ({}, none)
        MarshalOutput := fun _ => .ok []
        Open := fun _ => .ok [] }
    rw [verifyM_result L hparse hverify hjson rest w.lib token w',
      verifyM_result L hparse hverify hjson rest w.lib token w, hk, hc]
  refine ⟨hframe.1, hsame _ hframe.1 hframe.2, ?_, hsame⟩
  rw [(verifyM_frame L token (verifyM L token w).2).1, hframe.1]

/-- Witness of C9: two calls on the token `h.100.7` at clock reading 99 with the
call-counting library: both return `(true, nil)`, the key set stays `[7]`, and
only the counter of the library moves (3 calls, then 6). -/
theorem verify_deterministic_witness :
    (∀ token s s', (demoLibM.ParseSigned token s).1 = (demoLibM.ParseSigned token s').1) ∧
    (∀ jws keys s s', (demoLibM.Verify jws keys s).1 = (demoLibM.Verify jws keys s').1) ∧
    (∀ data s s', (demoLibM.UnmarshalJwt data s).1 = (demoLibM.UnmarshalJwt data s').1) ∧
    (verifyM demoLibM "h.100.7" ⟨⟨[7]⟩, 0, 99⟩).1 = (true, none) ∧
    (verifyM demoLibM "h.100.7" ⟨⟨[7]⟩, 0, 99⟩).2.lib = 3 ∧
    (verifyM demoLibM "h.100.7" (verifyM demoLibM "h.100.7" ⟨⟨[7]⟩, 0, 99⟩).2).2.lib = 6 ∧
    (verifyM demoLibM "h.100.7" (verifyM demoLibM "h.100.7" ⟨⟨[7]⟩, 0, 99⟩).2).1 =
      (verifyM demoLibM "h.100.7" ⟨⟨[7]⟩, 0, 99⟩).1 :=
  ⟨fun _ _ _ => rfl, fun _ _ _ _ => rfl, fun _ _ _ => rfl, rfl, rfl, rfl,
    (verify_deterministic demoLibM (fun _ _ _ => rfl) (fun _ _ _ _ => rfl) (fun _ _ _ => rfl)
      "h.100.7" ⟨⟨[7]⟩, 0, 99⟩).2.1⟩

/-! ## The boolean and the error of `verify` (C10) -/

/-- C10: for every token text, key set and clock reading, the boolean returned
by `verify` is `true` exactly when the returned error is `nil` (never
`(false, nil)`, never `(true, err)`); consequently the call `output(false)` is
unreachable in `main`: whenever `main` returns, what it wrote is what
`output(true)` writes, a response built from a struct with `success = true` and
an empty `error`. -/
theorem verify_bool_iff_no_error (L : Lib KeySet JWS E) (j : Jwks KeySet) (now : Int)
    (token : String) (args : List String) (stdin : Bytes) :
    ((j.verify L now token).1 = true ↔ (j.verify L now token).2 = none) ∧
    j.verify L now token ≠ (false, none) ∧
    (∀ err, j.verify L now token ≠ (true, some err)) ∧
    (∀ stdout, main L args now stdin = .returned stdout → stdout = output L true) ∧
    (outputValue true).Success = true ∧ (outputValue true).Error = "" := by
  have h := verify_fst_iff L j now token
  refine ⟨h, ?_, ?_, ?_, rfl, rfl⟩
  · intro hv
    rw [hv] at h
    simp at h
  · intro err hv
    rw [hv] at h
    simp at h
  · intro stdout hmain
    unfold main at hmain
    split at hmain
    · cases hmain
    · split at hmain
      · cases hmain
      · unfold mainRequest at hmain
        split at hmain
        · cases hmain
        · cases hmain
        · cases hmain
        · split at hmain
          · rw [mainVerify_eq] at hmain
            split at hmain
            · cases hmain
            · cases hmain
              rfl
          · split at hmain <;> cases hmain

/-- Witness of C10: the accepted request `bob h.100.55` at clock reading 50. -/
theorem verify_bool_iff_no_error_witness :
    main demoLib ["auth", "keys"] 50 (bytesOf "bob h.100.55\n") = .returned [[49, 10]] ∧
    [[49, 10]] = output demoLib true :=
  ⟨rfl,
    (verify_bool_iff_no_error demoLib ⟨[55]⟩ 50 "h.100.55" ["auth", "keys"]
      (bytesOf "bob h.100.55\n")).2.2.2.1 [[49, 10]] rfl⟩

end ErgoAuth
